import Mathlib

/-!
Shallow embedding of the gnosis-ocr core: the job-chained batch scheduler
(`app/jobs.py`), the chunked-upload assemblers (`app/uploader.py`,
`app/chunked_upload.py`, chunk endpoint in `app/main.py`), the derived
status builder (`JobManager.scan_and_build_status`), and the OCR worker
contract.  Byte strings are modelled as `List Nat`, storage as explicit
association lists or `Option`-valued maps, and Python exceptions as
`Except` values.
-/

namespace Gnosis

/-- Byte string content of a stored object. -/
abbrev Bytes := List Nat

/-- Python exception values that the embedded code can raise. -/
inductive PyErr where
  | valueError (msg : String)
  | runtimeError (msg : String)
  | fileNotFoundError
  | attributeError
  deriving Repr, DecidableEq

/-- Zero-pad a page number to three digits, as Python `f"{p:03d}"` does
for `pages/page_{p:03d}.png` and `results/page_{p:03d}.txt`. -/
def pad3 (n : Nat) : String :=
  if n < 10 then "00" ++ toString n
  else if n < 100 then "0" ++ toString n
  else toString n

/-- Storage key of an extracted page image (`jobs.py`, `_process_extract_pages_batch`). -/
def pageImageFile (p : Nat) : String := "pages/page_" ++ pad3 p ++ ".png"

/-- Storage key of a per-page OCR result (`jobs.py`, `_handle_ocr`). -/
def ocrResultFile (p : Nat) : String := "results/page_" ++ pad3 p ++ ".txt"

/-! ### Job processor: EXTRACT_PAGES and OCR batches (`app/jobs.py`) -/

/-- Result dict of `JobProcessor._process_extract_pages_batch`. -/
structure ExtractBatchResult where
  start_page : Nat
  end_page : Nat
  total_pages : Nat
  filename : String
  deriving Repr, DecidableEq

/-- `JobProcessor._process_extract_pages_batch`: renders pages
`start_page .. min (start_page + 9) total_pages` of the source document and
saves each as `pages/page_NNN.png`.  `pdfTotalPages` stands for
`pdfinfo_from_bytes(pdf_data)['Pages']`.  Returns the result dict together
with the list of page-image keys written, in the order they are saved. -/
def processExtractPagesBatch (filename : String) (start_page pdfTotalPages : Nat) :
    ExtractBatchResult × List String :=
  let end_page := min (start_page + 9) pdfTotalPages
  let pages := List.range' start_page (end_page + 1 - start_page)
  (⟨start_page, end_page, pdfTotalPages, filename⟩, pages.map pageImageFile)

/-- `JobProcessor._handle_extract_pages`: runs one batch and, when
`end_page < total_pages`, creates one continuation EXTRACT_PAGES job whose
`input_data` is `(filename, end_page + 1)`.  The first component is the
list of page-image keys written by the batch. -/
def handleExtractPages (filename : String) (start_page pdfTotalPages : Nat) :
    List String × Option (String × Nat) :=
  let r := processExtractPagesBatch filename start_page pdfTotalPages
  if r.1.end_page < r.1.total_pages then
    (r.2, some (r.1.filename, r.1.end_page + 1))
  else
    (r.2, none)

/-- `OCR_BATCH_SIZE` in `JobProcessor._handle_ocr`. -/
def OCR_BATCH_SIZE : Nat := 5

/-- Effects of one OCR job: result files written (key, text) in save order,
and the `start_page` of the continuation OCR job when one is created. -/
structure OcrOutcome where
  written : List (String × String)
  continuation : Option Nat
  deriving Repr, DecidableEq

/-- `JobProcessor._handle_ocr`: raises `ValueError` when `total_pages` is
missing or falsy; otherwise loads `pages/page_NNN.png` for the pages
`start_page .. min (start_page + OCR_BATCH_SIZE - 1) total_pages`, skipping
pages whose image is missing (`pageLoads p = false`), runs
`ocr_service.run_ocr_on_batch` on the loaded images (abstracted by
`ocrBatch`, acting on the page numbers of the loaded images), maps results
back to page numbers in input-list order, writes `results/page_NNN.txt`
for each, and creates a continuation job iff `end_page < total_pages`.
An exception from the OCR call aborts the job before any result file is
written and before any continuation job is created, exactly as in the
source where the `run_in_executor` call precedes the saves. -/
def handleOcr (total_pages : Option Nat) (start_page : Nat)
    (pageLoads : Nat → Bool) (ocrBatch : List Nat → Except String (List String)) :
    Except PyErr OcrOutcome :=
  match total_pages with
  | none => .error (.valueError "Missing total_pages in input_data for OCR job")
  | some 0 => .error (.valueError "Missing total_pages in input_data for OCR job")
  | some tp =>
    let end_page := min (start_page + OCR_BATCH_SIZE - 1) tp
    let batch := List.range' start_page (end_page + 1 - start_page)
    let valid := batch.filter pageLoads
    match ocrBatch valid with
    | .error e => .error (.runtimeError e)
    | .ok texts =>
      .ok { written := (valid.zip texts).map (fun pt => (ocrResultFile pt.1, pt.2)),
            continuation := if end_page < tp then some (end_page + 1) else none }

/-- What `JobProcessor.process_job` logs: a normal completion, or the
`logger.error(f"Job {job_id} failed: {e}")` line of its `except` block. -/
inductive ProcessLog where
  | finished
  | failedLogged (e : PyErr)
  deriving Repr, DecidableEq

/-- `JobProcessor.process_job` for an OCR payload: the surrounding
`try/except Exception` catches any exception from `_handle_ocr`, logs it,
and returns normally, so nothing propagates past the worker-pool boundary
and no retry happens.  On failure the job's storage effects are the ones
performed before the raise, which for a failing OCR call are none. -/
def processOcrJob (total_pages : Option Nat) (start_page : Nat)
    (pageLoads : Nat → Bool) (ocrBatch : List Nat → Except String (List String)) :
    ProcessLog × OcrOutcome :=
  match handleOcr total_pages start_page pageLoads ocrBatch with
  | .ok o => (.finished, o)
  | .error e => (.failedLogged e, { written := [], continuation := none })

/-- The chain of `(start_page, end_page)` batches produced by the job
continuation pattern with batch size `bm1 + 1`: each job covers
`start .. min (start + bm1) total` and spawns a follow-up starting at
`end_page + 1` iff `end_page < total`.  `batchChain 9` is the
EXTRACT_PAGES chain, `batchChain 4` the OCR chain. -/
def batchChain (bm1 total start : Nat) : List (Nat × Nat) :=
  if h : start ≤ total then
    (start, min (start + bm1) total) :: batchChain bm1 total (min (start + bm1) total + 1)
  else
    []
termination_by total + 1 - start
decreasing_by
  have h1 : start ≤ min (start + bm1) total := le_min (Nat.le_add_right _ _) h
  omega

/-! ### Derived status (`JobManager.scan_and_build_status`, `update_session_status`) -/

/-- One entry returned by `StorageService.list_files`: in Python a dict
with keys `name`, `size`, `modified`. -/
structure FileEntry where
  name : String
  size : Nat
  deriving Repr, DecidableEq

/-- The comprehension `[f for f in files if f.startswith("pages/page_") and
f.endswith(".png")]` in `scan_and_build_status`.  `list_files` returns
dicts, and a dict has no `startswith` attribute, so evaluating the filter
on the first element raises `AttributeError`; only an empty listing
evaluates without error. -/
def filterByNameShape (files : List FileEntry) : Except PyErr (List FileEntry) :=
  match files with
  | [] => .ok []
  | _ :: _ => .error .attributeError

/-- Python truthiness of the optional `total_pages` argument
(`None` and `0` are falsy). -/
def natOptTruthy : Option Nat → Bool
  | none => false
  | some n => n ≠ 0

/-- Python `x or y` for the optional `total_pages` against a `Nat` fallback. -/
def orElseTruthy (x : Option Nat) (y : Nat) : Nat :=
  match x with
  | some n => if n ≠ 0 then n else y
  | none => y

/-- Python `round` (banker's rounding, half to even) applied to a rational. -/
def pyRound (q : ℚ) : ℤ :=
  let f := ⌊q⌋
  let r := q - f
  if r < 1 / 2 then f
  else if 1 / 2 < r then f + 1
  else if f % 2 = 0 then f else f + 1

/-- Python `round((processed / total * 100))` as `scan_and_build_status`
computes a stage's `progress_percent`. -/
def progressPercent (processed total : Nat) : ℤ :=
  pyRound ((processed : ℚ) / (total : ℚ) * 100)

/-- One stage object of the status document. -/
structure StageStatus where
  status : String
  total_pages : Nat
  pages_processed : Nat
  progress_percent : ℤ
  deriving Repr, DecidableEq

/-- The status document built by `scan_and_build_status` (stages in
insertion order). -/
structure StatusData where
  session_id : String
  stages : List (String × StageStatus)
  deriving Repr, DecidableEq

/-- `JobManager.scan_and_build_status`: counts page images and OCR results
from the session listing and builds the stage dict.  Both counting blocks
wrap their comprehension in `try/except Exception`, so the
`AttributeError` raised by filtering dicts is swallowed and the counts
keep their initial value `0`. -/
def scanAndBuildStatus (session_id : String) (files : List FileEntry)
    (total_pages : Option Nat) : StatusData :=
  let pages_extracted :=
    match filterByNameShape files with
    | .ok l => l.length
    | .error _ => 0
  let ocr_completed :=
    match filterByNameShape files with
    | .ok l => l.length
    | .error _ => 0
  let extractionStage :=
    if pages_extracted > 0 || natOptTruthy total_pages then
      let actual_total := orElseTruthy total_pages pages_extracted
      let extraction_complete := pages_extracted = actual_total ∧ actual_total > 0
      [("page_extraction",
        { status := if extraction_complete then "complete" else "processing"
          total_pages := actual_total
          pages_processed := pages_extracted
          progress_percent :=
            if actual_total > 0 then progressPercent pages_extracted actual_total
            else 0 : StageStatus })]
    else []
  let ocrStage :=
    if ocr_completed > 0 || (pages_extracted > 0 && natOptTruthy total_pages) then
      let ocr_total := orElseTruthy total_pages pages_extracted
      let ocr_complete := ocr_completed = ocr_total ∧ ocr_total > 0
      [("ocr",
        { status := if ocr_complete then "complete" else "processing"
          total_pages := ocr_total
          pages_processed := ocr_completed
          progress_percent :=
            if ocr_total > 0 then progressPercent ocr_completed ocr_total
            else 0 : StageStatus })]
    else []
  { session_id := session_id, stages := extractionStage ++ ocrStage }

/-- `JobManager.update_session_status`: builds the status from the listing
and persists it; the first component is the storage key it saves under,
which the source fixes as `status_filename = "session_status.json"`. -/
def updateSessionStatus (session_id : String) (files : List FileEntry)
    (total_pages : Option Nat) : String × StatusData :=
  ("session_status.json", scanAndBuildStatus session_id files total_pages)

/-! ### Upload assembler (`app/uploader.py`, `UploadManager`) -/

/-- The tracker written by `UploadManager.start_chunked_upload` to
`chunks/chunker.json` (timestamps omitted). -/
structure ChunkerData where
  filename : String
  total_size : Nat
  total_chunks : Nat
  status : String
  deriving Repr, DecidableEq

/-- Storage state of one upload session as `UploadManager` sees it:
the optional tracker object, the chunk blobs `chunks/chunk_NNN.bin`
keyed by their chunk number, and the other objects under the session
(where the assembled file is written). -/
structure UploadState where
  chunker : Option ChunkerData
  chunkBlobs : List (Nat × Bytes)
  sessionFiles : List (String × Bytes)
  deriving Repr, DecidableEq

/-- Look up an object in an association list. -/
def lookupFile (fs : List (String × Bytes)) (k : String) : Option Bytes :=
  (fs.find? (fun p => p.1 = k)).map Prod.snd

/-- Overwrite-or-insert an object, as a `save_file` on an object store does. -/
def setFile (fs : List (String × Bytes)) (k : String) (v : Bytes) :
    List (String × Bytes) :=
  fs.filter (fun p => p.1 ≠ k) ++ [(k, v)]

/-- Bytes of the chunk blob with the given number, if present. -/
def lookupChunk (st : UploadState) (i : Nat) : Option Bytes :=
  (st.chunkBlobs.find? (fun p => p.1 = i)).map Prod.snd

/-- Chunk numbers observed by listing the actual chunk blobs in storage
(`assemble_file` step 3: parse `chunk_NNN.bin` names back to numbers). -/
def receivedChunks (st : UploadState) : List Nat :=
  st.chunkBlobs.map Prod.fst

/-- Python `sorted(list(expected_chunks - received_chunks))`: the ascending
list of chunk numbers below `total_chunks` for which no blob is stored. -/
def missingChunks (st : UploadState) (total_chunks : Nat) : List Nat :=
  (List.range total_chunks).filter (fun i => ¬ i ∈ receivedChunks st)

/-- Return value of `UploadManager.assemble_file`. -/
inductive AssembleResult where
  /-- `ValueError("Cannot assemble: session not found.")`. -/
  | notFound
  /-- The incomplete dict `(filename, total_chunks, received_chunks_count,
  missing_chunks)`. -/
  | incomplete (filename : String) (total_chunks receivedCount : Nat)
      (missing : List Nat)
  /-- The tracker dict with `status = "complete"`. -/
  | complete (c : ChunkerData)
  /-- A storage exception escaping the call (only reachable when a chunk
  blob vanishes between the listing and the streaming read). -/
  | raised (e : PyErr)
  deriving Repr, DecidableEq

/-- One `get_file` of `UploadManager._perform_assembly`'s chunk stream: a
missing blob raises `FileNotFoundError`. -/
def readChunkStep (st : UploadState) (acc : Bytes) (i : Nat) : Except PyErr Bytes :=
  match lookupChunk st i with
  | some b => .ok (acc ++ b)
  | none => .error .fileNotFoundError

/-- `UploadManager._perform_assembly`'s stream: `get_file` for chunks
`0 .. total_chunks - 1` in ascending order, concatenated. -/
def readChunksConcat (st : UploadState) (total_chunks : Nat) : Except PyErr Bytes :=
  (List.range total_chunks).foldlM (readChunkStep st) []

/-- The concatenation of the declared chunk blobs in ascending
chunk-number order (the value `readChunksConcat` yields when every
declared blob is present). -/
def concatChunks (st : UploadState) (total_chunks : Nat) : Bytes :=
  ((List.range total_chunks).map (fun i => (lookupChunk st i).getD [])).flatten

/-- `UploadManager.assemble_file`: load the tracker; list the actual chunk
blobs and compute the missing set; if anything is missing return the
incomplete dict without touching storage; otherwise stream chunks
`0 .. total_chunks - 1` in ascending order into one object named by the
tracker's `filename` under the session, write the tracker back with
`status = "complete"`, then delete the chunk blobs `0 .. total_chunks - 1`
and the tracker. -/
def assembleFile (st : UploadState) : AssembleResult × UploadState :=
  match st.chunker with
  | none => (.notFound, st)
  | some c =>
    let missing := missingChunks st c.total_chunks
    if missing ≠ [] then
      (.incomplete c.filename c.total_chunks (receivedChunks st).dedup.length missing, st)
    else
      match readChunksConcat st c.total_chunks with
      | .error e => (.raised e, st)
      | .ok assembled =>
        let c' := { c with status := "complete" }
        (.complete c',
          { chunker := none
            chunkBlobs := st.chunkBlobs.filter (fun p => c.total_chunks ≤ p.1)
            sessionFiles := setFile st.sessionFiles c.filename assembled })

/-! ### Chunked upload session (`app/chunked_upload.py`, chunk endpoint in `app/main.py`) -/

/-- The tracker of `ChunkedUploadSession` stored at
`upload_sessions/{upload_id}.json`.  `chunks` models the Python dict
`chunk_number -> True` by its key list in insertion order. -/
structure SessionData where
  upload_id : String
  filename : String
  total_size : Nat
  total_chunks : Nat
  chunks_received : Nat
  chunks : List Nat
  status : String
  deriving Repr, DecidableEq

/-- Storage under `_upload_sessions/` for one upload id: the tracker and
the chunk blobs `upload_chunks/{upload_id}/chunk_NNNN.bin` keyed by number. -/
structure ChunkedState where
  tracker : Option SessionData
  blobs : List (Nat × Bytes)
  deriving Repr, DecidableEq

/-- Overwrite-or-insert a chunk blob. -/
def setBlob (bs : List (Nat × Bytes)) (n : Nat) (v : Bytes) : List (Nat × Bytes) :=
  bs.filter (fun p => p.1 ≠ n) ++ [(n, v)]

/-- Look up a chunk blob by number. -/
def lookupBlob (bs : List (Nat × Bytes)) (n : Nat) : Option Bytes :=
  (bs.find? (fun p => p.1 = n)).map Prod.snd

/-- How many stored blobs carry the given chunk number. -/
def countBlob (bs : List (Nat × Bytes)) (n : Nat) : Nat :=
  (bs.filter (fun p => p.1 = n)).length

/-- Return value of `ChunkedUploadSession.add_chunk`. -/
inductive AddChunkResult where
  /-- `HTTPException(404, "Upload session not found")`. -/
  | http404
  /-- The `(session_data, already_received)` pair. -/
  | accepted (s : SessionData) (duplicate : Bool)
  deriving Repr, DecidableEq

/-- `ChunkedUploadSession.add_chunk`: 404 when the tracker is absent; a
duplicate chunk number returns `(session_data, True)` without touching
storage; otherwise the blob is saved, the tracker's `chunks` map gains the
number, `chunks_received` is incremented, and the tracker is persisted.
No validation of `chunk_number` against `total_chunks` is performed. -/
def addChunk (st : ChunkedState) (chunk_number : Nat) (data : Bytes) :
    AddChunkResult × ChunkedState :=
  match st.tracker with
  | none => (.http404, st)
  | some s =>
    if chunk_number ∈ s.chunks then
      (.accepted s true, st)
    else
      let s' := { s with chunks := s.chunks ++ [chunk_number]
                         chunks_received := s.chunks_received + 1 }
      (.accepted s' false,
        { tracker := some s', blobs := setBlob st.blobs chunk_number data })

/-- Chunk-number extraction in `upload_job_chunk` (`app/main.py`): the
`X-Chunk-Number` request header if present, else the file header, else the
hard-coded fallback `0`.  No request is rejected for a missing or
out-of-range chunk number. -/
def chunkNumberFromHeaders (reqHeader fileHeader : Option Nat) : Nat :=
  match reqHeader with
  | some n => n
  | none =>
    match fileHeader with
    | some n => n
    | none => 0

/-! ### Job manager metadata (`JobManager.create_job`, `StorageService.create_session`) -/

/-- One entry of `metadata.json.jobs`. -/
structure JobEntry where
  job_id : String
  job_type : String
  created_at : String
  deriving Repr, DecidableEq

/-- The `metadata.json` document.  Optional fields are absent keys;
`jobs = none` models a metadata object with no `jobs` key. -/
structure SessionMetadata where
  session_id : String
  created_at : String
  user_email : Option String := none
  user_hash : Option String := none
  status : Option String := none
  jobs : Option (List JobEntry) := none
  deriving Repr, DecidableEq

/-- The payload `create_job` dispatches to the worker (local pool or task
queue). -/
structure JobPayload where
  job_id : String
  session_id : String
  job_type : String
  user_email : Option String
  deriving Repr, DecidableEq

/-- `JobManager.create_job`: read `metadata.json` (a missing file is
caught and replaced by a fresh `(session_id, created_at, jobs = [])`
document with no user binding), default a missing `jobs` key to `[]`,
append the one new entry, write the document back, and dispatch the
payload.  Returns the written metadata, the dispatched payload and the
returned `job_id`.  `stored = none` is the `FileNotFoundError` case. -/
def createJob (stored : Option SessionMetadata) (session_id job_id job_type now : String)
    (user_email : Option String) : SessionMetadata × JobPayload × String :=
  let m :=
    match stored with
    | some m => m
    | none => { session_id := session_id, created_at := now, jobs := some [] }
  let js := m.jobs.getD []
  ({ m with jobs := some (js ++ [⟨job_id, job_type, now⟩]) },
   ⟨job_id, session_id, job_type, user_email⟩,
   job_id)

/-- `StorageService.create_session`: writes a fresh `metadata.json` (user
binding, `status = "created"`, no `jobs` key) under a freshly generated
session id, leaving every other session untouched. -/
def createSessionStore (store : String → Option SessionMetadata)
    (fresh_id now : String) (user_email user_hash : String) :
    String → Option SessionMetadata :=
  fun sid =>
    if sid = fresh_id then
      some { session_id := fresh_id, created_at := now,
             user_email := some user_email, user_hash := some user_hash,
             status := some "created", jobs := none }
    else store sid

/-- `create_job` acting on the per-session store: only the target
session's `metadata.json` changes. -/
def createJobStore (store : String → Option SessionMetadata)
    (session_id job_id job_type now : String) (user_email : Option String) :
    String → Option SessionMetadata :=
  fun sid =>
    if sid = session_id then
      some (createJob (store session_id) session_id job_id job_type now user_email).1
    else store sid

/-! ### OCR worker batch call -/

/-- Modelled from the spec: `jobs.py` line 459 invokes
`ocr_service.run_ocr_on_batch`, but no method of that name is defined
anywhere under the source tree; only its caller exists.  Following §4.6 of
the specification: the loading progress percentage after `elapsed` seconds
is `min(floor(elapsed_s / 60 * 100), 90)`. -/
def loadingPercent (elapsed : Nat) : Nat :=
  min (elapsed * 100 / 60) 90

/-- Modelled from the spec: the `loading` progress events `(elapsed,
percent)` emitted every 5 seconds while blocking for `wait` seconds. -/
def loadingEvents (wait : Nat) : List (Nat × Nat) :=
  (List.range (wait / 5)).map (fun k => (5 * (k + 1), loadingPercent (5 * (k + 1))))

/-- Modelled from the spec: `run_ocr_on_batch` (absent from the source;
only called from `jobs.py`).  `modelReadyAt` is the time, in seconds from
the call, at which the model finishes loading (`none` = never).  If the
model is not ready the call blocks up to 300 seconds, emitting `loading`
progress every 5 seconds; once 300 seconds elapse without the model
becoming ready it fails with `ModelNotReady` (the `.error ()` case).  If
the model loads within the window, the batch proceeds and returns one
result per input image in input order. -/
def runOcrOnBatch (modelReadyAt : Option Nat) (images : List Nat)
    (ocrFn : Nat → String) : List (Nat × Nat) × Except Unit (List String) :=
  match modelReadyAt with
  | some r =>
    if r ≤ 300 then (loadingEvents r, .ok (images.map ocrFn))
    else (loadingEvents 300, .error ())
  | none => (loadingEvents 300, .error ())

/-! ### Helper lemmas -/

lemma zip_map_written (l : List Nat) (g : Nat → String) :
    ((l.zip (l.map g)).map (fun pt => (ocrResultFile pt.1, pt.2)))
      = l.map (fun p => (ocrResultFile p, g p)) := by
  induction l with
  | nil => rfl
  | cons a t ih => simp [ih]

lemma loadingEvents_mem (wait : Nat) (ev : Nat × Nat) (hev : ev ∈ loadingEvents wait) :
    ev.2 = min (ev.1 * 100 / 60) 90 ∧ ev.1 % 5 = 0 ∧ 5 ≤ ev.1 ∧ ev.1 ≤ wait := by
  simp only [loadingEvents, List.mem_map, List.mem_range] at hev
  obtain ⟨k, hk, rfl⟩ := hev
  refine ⟨rfl, by omega, by omega, ?_⟩
  have h1 : k + 1 ≤ wait / 5 := hk
  calc 5 * (k + 1) ≤ 5 * (wait / 5) := Nat.mul_le_mul_left 5 h1
    _ = wait / 5 * 5 := Nat.mul_comm _ _
    _ ≤ wait := Nat.div_mul_le_self wait 5

lemma progressPercent_zero (total : Nat) : progressPercent 0 total = 0 := by
  simp only [progressPercent, Nat.cast_zero, zero_div, zero_mul, pyRound]
  norm_num

lemma lookupBlob_setBlob (bs : List (Nat × Bytes)) (n : Nat) (d : Bytes) :
    lookupBlob (setBlob bs n d) n = some d := by
  simp only [lookupBlob, setBlob, List.find?_append]
  have h : (bs.filter (fun p => p.1 ≠ n)).find? (fun p => p.1 = n) = none := by
    rw [List.find?_eq_none]
    intro p hp
    simp only [List.mem_filter, decide_eq_true_eq, ne_eq] at hp
    simpa using hp.2
  simp [h]

lemma countBlob_setBlob (bs : List (Nat × Bytes)) (n : Nat) (d : Bytes) :
    countBlob (setBlob bs n d) n = 1 := by
  simp only [countBlob, setBlob, List.filter_append, List.length_append]
  have h : (bs.filter (fun p => p.1 ≠ n)).filter (fun p => decide (p.1 = n)) = [] := by
    rw [List.filter_eq_nil_iff]
    intro p hp
    simp only [List.mem_filter, decide_eq_true_eq, ne_eq] at hp
    simpa using hp.2
  simp [h]

lemma lookupFile_setFile (fs : List (String × Bytes)) (k : String) (v : Bytes) :
    lookupFile (setFile fs k v) k = some v := by
  simp only [lookupFile, setFile, List.find?_append]
  have h : (fs.filter (fun p => p.1 ≠ k)).find? (fun p => p.1 = k) = none := by
    rw [List.find?_eq_none]
    intro p hp
    simp only [List.mem_filter, decide_eq_true_eq, ne_eq] at hp
    simpa using hp.2
  simp [h]

lemma isSome_map_snd (o : Option (Nat × Bytes)) :
    (o.map Prod.snd).isSome = o.isSome := by
  cases o <;> rfl

lemma lookupChunk_isSome_iff (st : UploadState) (i : Nat) :
    (lookupChunk st i).isSome ↔ i ∈ receivedChunks st := by
  rw [lookupChunk, isSome_map_snd, List.find?_isSome]
  simp [receivedChunks]

lemma lookupChunk_eq_none_iff (st : UploadState) (i : Nat) :
    lookupChunk st i = none ↔ ¬ i ∈ receivedChunks st := by
  rw [← lookupChunk_isSome_iff, Option.not_isSome_iff_eq_none]

lemma missingChunks_mem (st : UploadState) (n i : Nat) :
    i ∈ missingChunks st n ↔ i < n ∧ lookupChunk st i = none := by
  simp [missingChunks, lookupChunk_eq_none_iff]

lemma missingChunks_sorted (st : UploadState) (n : Nat) :
    (missingChunks st n).Sorted (· < ·) := by
  exact (List.pairwise_lt_range n).sublist (List.filter_sublist _)

lemma missingChunks_eq_nil (st : UploadState) (n : Nat)
    (h : ∀ i, i < n → (lookupChunk st i).isSome) :
    missingChunks st n = [] := by
  rw [List.eq_nil_iff_forall_not_mem]
  intro i hi
  rw [missingChunks_mem] at hi
  have := h i hi.1
  rw [hi.2] at this
  simp at this

lemma foldlM_readChunkStep (st : UploadState) (l : List Nat) (acc : Bytes)
    (h : ∀ i ∈ l, (lookupChunk st i).isSome) :
    l.foldlM (readChunkStep st) acc
      = .ok (acc ++ (l.map (fun i => (lookupChunk st i).getD [])).flatten) := by
  induction l generalizing acc with
  | nil => simp [List.foldlM_nil, pure, Except.pure]
  | cons a t ih =>
    obtain ⟨b, hb⟩ := Option.isSome_iff_exists.mp (h a (by simp))
    rw [List.foldlM_cons]
    have hstep : readChunkStep st acc a = .ok (acc ++ b) := by
      simp [readChunkStep, hb]
    rw [hstep]
    show t.foldlM (readChunkStep st) (acc ++ b) = _
    rw [ih (acc ++ b) (fun i hi => h i (by simp [hi]))]
    simp [hb, List.append_assoc]

lemma readChunksConcat_ok (st : UploadState) (n : Nat)
    (h : ∀ i, i < n → (lookupChunk st i).isSome) :
    readChunksConcat st n = .ok (concatChunks st n) := by
  rw [readChunksConcat, concatChunks,
    foldlM_readChunkStep st _ [] (fun i hi => h i (List.mem_range.mp hi))]
  rfl

lemma lookupChunk_filter_ge (st : UploadState) (n i : Nat) (hi : i < n) :
    (((st.chunkBlobs.filter (fun p => n ≤ p.1)).find?
        (fun p => p.1 = i)).map Prod.snd) = none := by
  have h : (st.chunkBlobs.filter (fun p => n ≤ p.1)).find? (fun p => p.1 = i) = none := by
    rw [List.find?_eq_none]
    intro p hp
    simp only [List.mem_filter, decide_eq_true_eq] at hp
    intro hc
    simp only [decide_eq_true_eq] at hc
    omega
  simp [h]

/-! ### Claim theorems -/

/-- C2: for a document with `total_pages ≥ 1` and `start_page ∈ [1,
total_pages]`, an EXTRACT_PAGES job saves exactly the page images for
pages `start_page .. min (start_page + 10 - 1) total_pages` and an OCR
job writes exactly the result files for pages
`start_page .. min (start_page + 5 - 1) total_pages`; each creates one
continuation job of the same type starting at `end_page + 1` iff
`end_page < total_pages`; and an 11-page document yields exactly the
EXTRACT_PAGES batches `(1,10), (11,11)` and the OCR batches
`(1,5), (6,10), (11,11)`. -/
theorem extract_and_ocr_batch_chaining (f : String) (g : Nat → String)
    (total start : Nat) (h1 : 1 ≤ start) (h2 : start ≤ total) :
    (handleExtractPages f start total).1
        = (List.range' start (min (start + 9) total + 1 - start)).map pageImageFile
  ∧ ((handleExtractPages f start total).2
        = if min (start + 9) total < total then some (f, min (start + 9) total + 1)
          else none)
  ∧ handleOcr (some total) start (fun _ => true) (fun l => .ok (l.map g))
        = .ok { written := (List.range' start (min (start + 4) total + 1 - start)).map
                    (fun p => (ocrResultFile p, g p)),
                continuation := if min (start + 4) total < total
                    then some (min (start + 4) total + 1) else none }
  ∧ batchChain 9 11 1 = [(1, 10), (11, 11)]
  ∧ batchChain 4 11 1 = [(1, 5), (6, 10), (11, 11)] := by
  obtain ⟨t, rfl⟩ : ∃ t, total = t + 1 := ⟨total - 1, by omega⟩
  refine ⟨?_, ?_, ?_, ?_, ?_⟩
  · simp only [handleExtractPages, processExtractPagesBatch]
    split <;> rfl
  · simp only [handleExtractPages, processExtractPagesBatch]
    split <;> simp [*]
  · simp only [handleOcr, OCR_BATCH_SIZE, List.filter_true, zip_map_written]
    norm_num
  · rw [batchChain]; norm_num
    rw [batchChain]; norm_num
    rw [batchChain]; norm_num
  · rw [batchChain]; norm_num
    rw [batchChain]; norm_num
    rw [batchChain]; norm_num
    rw [batchChain]; norm_num

/-- C2 witness: the theorem applied to an 11-page document at
`start_page = 1`. -/
theorem extract_and_ocr_batch_chaining_witness :
    (handleExtractPages "a.pdf" 1 11).2 = some ("a.pdf", 11)
  ∧ batchChain 9 11 1 = [(1, 10), (11, 11)]
  ∧ batchChain 4 11 1 = [(1, 5), (6, 10), (11, 11)] := by
  have h := extract_and_ocr_batch_chaining "a.pdf" toString 11 1 (by omega) (by omega)
  exact ⟨by simpa using h.2.1, h.2.2.2.1, h.2.2.2.2⟩

/-- C8: a batch-inference call made while the model is not yet loaded
blocks at most 300 seconds, every emitted loading progress event comes 5
seconds after the previous one and carries
`percent = min (floor (elapsed / 60 * 100)) 90`, the call fails with
`ModelNotReady` exactly when the model does not become ready within 300
seconds, and on success it returns one result per input image in input
order. -/
theorem run_ocr_on_batch_blocking (r : Option Nat) (images : List Nat)
    (g : Nat → String) :
    (∀ ev ∈ (runOcrOnBatch r images g).1,
        ev.2 = min (ev.1 * 100 / 60) 90 ∧ ev.1 % 5 = 0 ∧ 5 ≤ ev.1 ∧ ev.1 ≤ 300)
  ∧ ((runOcrOnBatch r images g).2 = .error () ↔ ∀ t, r = some t → 300 < t)
  ∧ (∀ t, r = some t → t ≤ 300 →
        (runOcrOnBatch r images g).2 = .ok (images.map g)
          ∧ (runOcrOnBatch r images g).1 = loadingEvents t)
  ∧ (∀ res, (runOcrOnBatch r images g).2 = .ok res →
        res = images.map g ∧ res.length = images.length) := by
  match r with
  | none =>
    refine ⟨fun ev hev => ?_, by simp [runOcrOnBatch], ?_, ?_⟩
    · have h := loadingEvents_mem 300 ev hev
      exact ⟨h.1, h.2.1, h.2.2.1, h.2.2.2⟩
    · intro t ht; cases ht
    · intro res hres; simp [runOcrOnBatch] at hres
  | some w =>
    by_cases hw : w ≤ 300
    · refine ⟨fun ev hev => ?_, ?_, ?_, ?_⟩
      · simp only [runOcrOnBatch, if_pos hw] at hev
        have h := loadingEvents_mem w ev hev
        exact ⟨h.1, h.2.1, h.2.2.1, le_trans h.2.2.2 hw⟩
      · simp only [runOcrOnBatch, if_pos hw]
        constructor
        · intro h; cases h
        · intro h; exact absurd (h w rfl) (by omega)
      · intro t ht hle
        cases ht
        simp [runOcrOnBatch, if_pos hw]
      · intro res hres
        simp only [runOcrOnBatch, if_pos hw] at hres
        cases hres
        exact ⟨rfl, by simp⟩
    · refine ⟨fun ev hev => ?_, ?_, ?_, ?_⟩
      · simp only [runOcrOnBatch, if_neg hw] at hev
        have h := loadingEvents_mem 300 ev hev
        exact ⟨h.1, h.2.1, h.2.2.1, h.2.2.2⟩
      · simp only [runOcrOnBatch, if_neg hw]
        constructor
        · intro _ t ht; cases ht; omega
        · intro _; trivial
      · intro t ht hle; cases ht; omega
      · intro res hres
        simp only [runOcrOnBatch, if_neg hw] at hres
        cases hres

/-- C8 witness: a model that loads after 60 seconds lets the batch
proceed and return one result per image in order. -/
theorem run_ocr_on_batch_blocking_witness :
    (runOcrOnBatch (some 60) [3, 1] (fun n => toString n)).2 = .ok ["3", "1"] := by
  have h := (run_ocr_on_batch_blocking (some 60) [3, 1]
    (fun n => toString n)).2.2.1 60 rfl (by omega)
  simpa using h.1

/-- C7: in local mode an exception raised by the OCR call inside a job
does not propagate past the worker-pool boundary: `process_job` returns
normally with the failure logged, no result file for the batch is
written, and no continuation job is created. -/
theorem ocr_exception_contained (tp start : Nat) (loads : Nat → Bool)
    (ocrB : List Nat → Except String (List String)) (e : String)
    (htp : 0 < tp) (hfail : ∀ l, ocrB l = .error e) :
    handleOcr (some tp) start loads ocrB = .error (.runtimeError e)
  ∧ processOcrJob (some tp) start loads ocrB
      = (.failedLogged (.runtimeError e), { written := [], continuation := none }) := by
  obtain ⟨t, rfl⟩ : ∃ t, tp = t + 1 := ⟨tp - 1, by omega⟩
  have h : handleOcr (some (t + 1)) start loads ocrB = .error (.runtimeError e) := by
    simp [handleOcr, hfail]
  exact ⟨h, by simp [processOcrJob, h]⟩

/-- C7 witness: a one-page OCR job whose model call raises. -/
theorem ocr_exception_contained_witness :
    processOcrJob (some 1) 1 (fun _ => true) (fun _ => .error "CUDA out of memory")
      = (.failedLogged (.runtimeError "CUDA out of memory"),
         { written := [], continuation := none }) :=
  (ocr_exception_contained 1 1 (fun _ => true) (fun _ => .error "CUDA out of memory")
    "CUDA out of memory" (by omega) (fun _ => rfl)).2

/-- C10: when a session's `metadata.json` does not exist, `create_job`
does not fail: it builds a fresh document holding only `session_id`,
`created_at` and the single new job entry (no user binding), dispatches
the payload, and returns the generated `job_id`. -/
theorem create_job_missing_metadata (session_id job_id job_type now : String)
    (ue : Option String) :
    createJob none session_id job_id job_type now ue
      = ({ session_id := session_id, created_at := now,
           user_email := none, user_hash := none, status := none,
           jobs := some [⟨job_id, job_type, now⟩] },
         ⟨job_id, session_id, job_type, ue⟩,
         job_id) := rfl

/-- C6: `create_job` writes back the previously stored `metadata.json.jobs`
array (empty when the file or the key is absent) with exactly one new
entry appended, so every previously observed entry is still present, and
the only other core operation writing `metadata.json` —
`create_session` — writes only under its freshly generated session id,
leaving every other session's metadata untouched; likewise `create_job`
touches no other session. -/
theorem metadata_jobs_append_only
    (stored : Option SessionMetadata) (session_id job_id job_type now : String)
    (ue : Option String)
    (store : String → Option SessionMetadata)
    (fresh_id now2 em hsh other : String) (hother : other ≠ fresh_id) :
    (createJob stored session_id job_id job_type now ue).1.jobs
        = some (((stored.map (fun m => m.jobs.getD [])).getD [])
                  ++ [⟨job_id, job_type, now⟩])
  ∧ (∀ j, j ∈ (stored.map (fun m => m.jobs.getD [])).getD []
        → j ∈ ((createJob stored session_id job_id job_type now ue).1.jobs.getD []))
  ∧ createSessionStore store fresh_id now2 em hsh other = store other
  ∧ (∀ sid, sid ≠ session_id →
        createJobStore store session_id job_id job_type now ue sid = store sid) := by
  refine ⟨?_, ?_, ?_, ?_⟩
  · cases stored <;> simp [createJob]
  · intro j hj
    cases stored <;> simp_all [createJob]
  · simp [createSessionStore, hother]
  · intro sid hsid
    simp [createJobStore, hsid]

/-- C6 witness: appending a job to a session that already holds one. -/
theorem metadata_jobs_append_only_witness :
    (createJob (some { session_id := "s", created_at := "t0",
                       jobs := some [⟨"j0", "extract_pages", "t0"⟩] })
        "s" "j1" "ocr" "t1" (some "u@example.com")).1.jobs
      = some [⟨"j0", "extract_pages", "t0"⟩, ⟨"j1", "ocr", "t1"⟩] := by
  have h := (metadata_jobs_append_only
    (some { session_id := "s", created_at := "t0",
            jobs := some [⟨"j0", "extract_pages", "t0"⟩] })
    "s" "j1" "ocr" "t1" (some "u@example.com")
    (fun _ => none) "y" "t2" "e" "h" "x" (by decide)).1
  simpa using h

/-- C5: for an active upload session, re-uploading a chunk number already
in the tracker's `chunks` map returns the duplicate indication and leaves
all storage untouched; uploading the same chunk number twice therefore
stores exactly one blob for it and counts it once in `chunks_received`. -/
theorem duplicate_chunk_idempotent (st : ChunkedState) (s : SessionData)
    (n : Nat) (d d2 : Bytes) (htr : st.tracker = some s) :
    (n ∈ s.chunks → addChunk st n d = (.accepted s true, st))
  ∧ (¬ n ∈ s.chunks →
      addChunk (addChunk st n d).2 n d2
          = (.accepted { s with chunks := s.chunks ++ [n],
                                chunks_received := s.chunks_received + 1 } true,
             (addChunk st n d).2)
        ∧ countBlob (addChunk st n d).2.blobs n = 1
        ∧ ((addChunk st n d).2.tracker.map SessionData.chunks_received)
            = some (s.chunks_received + 1)) := by
  constructor
  · intro hdup
    simp [addChunk, htr, hdup]
  · intro hnew
    have hfirst : (addChunk st n d).2
        = { tracker := some { s with chunks := s.chunks ++ [n],
                                     chunks_received := s.chunks_received + 1 }
            blobs := setBlob st.blobs n d } := by
      simp [addChunk, htr, hnew]
    refine ⟨?_, ?_, ?_⟩
    · rw [hfirst]
      simp [addChunk]
    · rw [hfirst]
      exact countBlob_setBlob st.blobs n d
    · rw [hfirst]
      rfl

/-- C5 witness: chunk 0 uploaded twice into a two-chunk session. -/
theorem duplicate_chunk_idempotent_witness :
    addChunk (addChunk ⟨some ⟨"u", "a.pdf", 2048, 2, 0, [], "active"⟩, []⟩ 0 [1, 2]).2
        0 [3, 4]
      = (.accepted ⟨"u", "a.pdf", 2048, 2, 1, [0], "active"⟩ true,
         (addChunk ⟨some ⟨"u", "a.pdf", 2048, 2, 0, [], "active"⟩, []⟩ 0 [1, 2]).2)
  ∧ countBlob (addChunk ⟨some ⟨"u", "a.pdf", 2048, 2, 0, [], "active"⟩, []⟩ 0 [1, 2]).2.blobs 0
      = 1 := by
  have h := ((duplicate_chunk_idempotent
    ⟨some ⟨"u", "a.pdf", 2048, 2, 0, [], "active"⟩, []⟩
    ⟨"u", "a.pdf", 2048, 2, 0, [], "active"⟩ 0 [1, 2] [3, 4] rfl).2 (by decide))
  exact ⟨h.1, h.2.1⟩

/-- The storage state of the C9 scenario: an active upload session
declared with `total_chunks = 2` and no chunk received yet. -/
def c9State : ChunkedState :=
  { tracker := some ⟨"u1", "a.pdf", 2048, 2, 0, [], "active"⟩, blobs := [] }

/-- C9 counterexample: uploading chunk number 5 to a session declared
with `total_chunks = 2` is not rejected — the blob is stored under that
number and `chunks_received` is incremented — and a missing chunk-number
header is not rejected either but silently defaults to 0. -/
theorem chunk_validation_counterexample :
    (addChunk c9State 5 [7, 7]).1
        = .accepted ⟨"u1", "a.pdf", 2048, 2, 1, [5], "active"⟩ false
  ∧ lookupBlob (addChunk c9State 5 [7, 7]).2.blobs 5 = some [7, 7]
  ∧ ((addChunk c9State 5 [7, 7]).2.tracker.map SessionData.chunks_received) = some 1
  ∧ chunkNumberFromHeaders none none = 0 := by
  refine ⟨?_, ?_, ?_, rfl⟩ <;> decide

/-- C9 amended: the chunk-upload path performs no validation of the chunk
number: a request whose chunk-number header is missing defaults to chunk
0, and any not-yet-received chunk number — in particular one outside
`[0, total_chunks)` — is accepted, its blob stored and the tracker's
`chunks_received` incremented. -/
theorem chunk_number_not_validated (st : ChunkedState) (s : SessionData)
    (n : Nat) (d : Bytes) (htr : st.tracker = some s) (hnew : ¬ n ∈ s.chunks) :
    (addChunk st n d).1
        = .accepted { s with chunks := s.chunks ++ [n],
                             chunks_received := s.chunks_received + 1 } false
  ∧ lookupBlob (addChunk st n d).2.blobs n = some d
  ∧ ((addChunk st n d).2.tracker.map SessionData.chunks_received)
      = some (s.chunks_received + 1)
  ∧ chunkNumberFromHeaders none none = 0 := by
  have hst : addChunk st n d
      = (.accepted { s with chunks := s.chunks ++ [n],
                            chunks_received := s.chunks_received + 1 } false,
         { tracker := some { s with chunks := s.chunks ++ [n],
                                    chunks_received := s.chunks_received + 1 }
           blobs := setBlob st.blobs n d }) := by
    simp [addChunk, htr, hnew]
  refine ⟨?_, ?_, ?_, rfl⟩
  · rw [hst]
  · rw [hst]; exact lookupBlob_setBlob st.blobs n d
  · rw [hst]; rfl

/-- C9 amended witness: the out-of-range chunk 5 accepted into the
two-chunk session. -/
theorem chunk_number_not_validated_witness :
    lookupBlob (addChunk c9State 5 [7, 7]).2.blobs 5 = some [7, 7] :=
  (chunk_number_not_validated c9State ⟨"u1", "a.pdf", 2048, 2, 0, [], "active"⟩
    5 [7, 7] rfl (by decide)).2.1

/-- C4: when the stored chunk blobs omit at least one declared chunk
number, `assemble_file` returns the incomplete result whose
`missing_chunks` is the ascending list of exactly the chunk numbers below
`total_chunks` with no blob in storage — determined by listing the actual
blobs — and the call leaves the tracker, the chunk blobs and every other
object unchanged. -/
theorem assemble_incomplete_no_deletion (st : UploadState) (c : ChunkerData)
    (htr : st.chunker = some c)
    (hmiss : missingChunks st c.total_chunks ≠ []) :
    assembleFile st
        = (.incomplete c.filename c.total_chunks (receivedChunks st).dedup.length
             (missingChunks st c.total_chunks), st)
  ∧ (∀ i, i ∈ missingChunks st c.total_chunks
        ↔ i < c.total_chunks ∧ lookupChunk st i = none)
  ∧ (missingChunks st c.total_chunks).Sorted (· < ·) := by
  refine ⟨?_, fun i => missingChunks_mem st c.total_chunks i,
    missingChunks_sorted st c.total_chunks⟩
  simp [assembleFile, htr, hmiss]

/-- The storage state of the C4 scenario: three declared chunks, blobs 0
and 2 present, chunk 1 absent. -/
def c4State : UploadState :=
  { chunker := some ⟨"a.pdf", 2048, 3, "uploading"⟩
    chunkBlobs := [(0, [1]), (2, [2])]
    sessionFiles := [] }

/-- C4 witness: assembling with chunk 1 missing returns the incomplete
result naming exactly chunk 1 and deletes nothing. -/
theorem assemble_incomplete_no_deletion_witness :
    missingChunks c4State 3 = [1]
  ∧ assembleFile c4State
      = (.incomplete "a.pdf" 3 ((receivedChunks c4State).dedup.length)
           (missingChunks c4State 3), c4State) :=
  ⟨by decide,
   (assemble_incomplete_no_deletion c4State ⟨"a.pdf", 2048, 3, "uploading"⟩
     rfl (by decide)).1⟩

/-- The storage state of the C3 counterexample: the tracker declares one
chunk and `total_size = 5`, chunk 0 holds only 3 bytes, and an extra
blob with chunk number 1 sits outside the declared range. -/
def c3State : UploadState :=
  { chunker := some ⟨"a.pdf", 5, 1, "uploading"⟩
    chunkBlobs := [(0, [10, 20, 30]), (1, [9])]
    sessionFiles := [] }

/-- C3 counterexample: every declared chunk of `c3State` is present, yet
after assembly the assembled object's size is 3, not the tracker's
`total_size = 5`, and a chunk blob still remains in storage, so
upload-session state survives. -/
theorem assemble_complete_counterexample :
    (∀ i, i < 1 → (lookupChunk c3State i).isSome)
  ∧ (lookupFile (assembleFile c3State).2.sessionFiles "a.pdf").map List.length
      = some 3
  ∧ (lookupFile (assembleFile c3State).2.sessionFiles "a.pdf").map List.length
      ≠ some 5
  ∧ (assembleFile c3State).2.chunkBlobs = [(1, [9])] := by
  refine ⟨?_, ?_, ?_, ?_⟩ <;> decide

/-- C3 amended: once every declared chunk `0 .. total_chunks - 1` is
present, `assemble_file` writes under the session one object named by the
tracker's filename whose bytes are the concatenation of the declared
chunk blobs in ascending chunk-number order (the storage model carries no
arrival order, so arrival order cannot matter), then deletes the declared
chunk blobs and the tracker; the assembled object's size is the sum of
the declared chunk blobs' sizes — equal to the declared `total_size` only
when the uploaded bytes actually sum to it — and any chunk blob numbered
outside the declared range is left in place. -/
theorem assemble_complete_behavior (st : UploadState) (c : ChunkerData)
    (htr : st.chunker = some c)
    (hall : ∀ i, i < c.total_chunks → (lookupChunk st i).isSome) :
    assembleFile st
        = (.complete { c with status := "complete" },
           { chunker := none
             chunkBlobs := st.chunkBlobs.filter (fun p => c.total_chunks ≤ p.1)
             sessionFiles := setFile st.sessionFiles c.filename
               (concatChunks st c.total_chunks) })
  ∧ lookupFile (assembleFile st).2.sessionFiles c.filename
      = some (concatChunks st c.total_chunks)
  ∧ (concatChunks st c.total_chunks).length
      = ((List.range c.total_chunks).map
          (fun i => ((lookupChunk st i).getD []).length)).sum
  ∧ (assembleFile st).2.chunker = none
  ∧ (∀ i, i < c.total_chunks → lookupChunk (assembleFile st).2 i = none) := by
  have hnil := missingChunks_eq_nil st c.total_chunks hall
  have hread := readChunksConcat_ok st c.total_chunks hall
  have hmain : assembleFile st
      = (.complete { c with status := "complete" },
         { chunker := none
           chunkBlobs := st.chunkBlobs.filter (fun p => c.total_chunks ≤ p.1)
           sessionFiles := setFile st.sessionFiles c.filename
             (concatChunks st c.total_chunks) }) := by
    simp [assembleFile, htr, hnil, hread]
  refine ⟨hmain, ?_, ?_, ?_, ?_⟩
  · rw [hmain]
    exact lookupFile_setFile st.sessionFiles c.filename _
  · simp only [concatChunks, List.length_flatten, List.map_map]
    rfl
  · rw [hmain]
  · intro i hi
    rw [hmain]
    exact lookupChunk_filter_ge st c.total_chunks i hi

/-- The storage state of the C3 amended witness: two declared chunks,
stored in reverse order in the blob list. -/
def c3GoodState : UploadState :=
  { chunker := some ⟨"b.pdf", 2, 2, "uploading"⟩
    chunkBlobs := [(1, [5]), (0, [4])]
    sessionFiles := [("other.txt", [1])] }

/-- C3 amended witness: both chunks present, so assembly produces the
ascending concatenation `[4, 5]`, deletes the declared blobs and the
tracker. -/
theorem assemble_complete_behavior_witness :
    concatChunks c3GoodState 2 = [4, 5]
  ∧ assembleFile c3GoodState
      = (.complete ⟨"b.pdf", 2, 2, "complete"⟩,
         { chunker := none
           chunkBlobs := c3GoodState.chunkBlobs.filter (fun p => 2 ≤ p.1)
           sessionFiles := setFile c3GoodState.sessionFiles "b.pdf"
             (concatChunks c3GoodState 2) }) :=
  ⟨by decide,
   (assemble_complete_behavior c3GoodState ⟨"b.pdf", 2, 2, "uploading"⟩
     rfl (by decide)).1⟩

/-- The session listing of the C1 scenario: one extracted page image and
one OCR result are actually present in storage. -/
def c1Files : List FileEntry :=
  [⟨"pages/page_001.png", 100⟩, ⟨"results/page_001.txt", 10⟩]

/-- C1: the code evaluated at the failing input.  With a page image and
an OCR result present and `known_total_pages = 1`, the rebuilt document
reports `pages_processed = 0` and no `ocr` stage (the dict items returned
by `list_files` have no `startswith`, so both counting blocks swallow an
`AttributeError` and count 0), and it is persisted under
`session_status.json`, not `status.json`; without `known_total_pages` no
stage is emitted at all. -/
theorem scan_status_at_failing_input :
    updateSessionStatus "sess" c1Files (some 1)
      = ("session_status.json",
         { session_id := "sess"
           stages := [("page_extraction",
             { status := "processing", total_pages := 1,
               pages_processed := 0, progress_percent := 0 })] })
  ∧ updateSessionStatus "sess" c1Files none
      = ("session_status.json", { session_id := "sess", stages := [] }) := by
  constructor <;>
    simp [updateSessionStatus, scanAndBuildStatus, c1Files, filterByNameShape,
      natOptTruthy, orElseTruthy, progressPercent_zero]

end Gnosis
